import Mathlib

/-!
Verification of the Voice-ai repository's core logic against its
natural-language specification.

The development shallowly embeds the TypeScript sources:
* the Analytics Aggregator (`updateMetrics` in `App`, src/unnamed/part_000),
* the Response Engine Adapter (`getBotResponse`, `generateSpeech` in the
  gemini service module, src/unnamed/part_001),
* the conversation turn pipeline of `VoiceBotView`
  (src/components/TTSView.tsx: `processConversationTurn`,
  `processAudioInput`, `stopPlayback`, `playResponse`,
  `handleSuggestionClick`).

JavaScript numbers are modelled by `Rat` (exact rationals; the spec grants
tolerance for floating rounding, and every claim here is about the exact
update rules, not about rounding). JavaScript truthiness on a possibly
absent numeric field `x` is modelled as `x.getD 0 ≠ 0`, which matches
`undefined`, `null` and `0` all being falsy. Asynchronous service calls
are modelled as environment-supplied results (`Except` for calls that can
throw); `try`/`catch` blocks become explicit `match`es on those results.
-/

namespace VoiceAI

/-! ## Analytics Aggregator (src/unnamed/part_000, `updateMetrics`) -/

/-- The `lastQueryLatency` record passed from the turn pipeline:
`{ stt, llm, tts, total }`. -/
structure QueryLatency where
  stt : Rat
  llm : Rat
  tts : Rat
  total : Rat
deriving DecidableEq

/-- The `AnalyticsMetrics` state held in `App` (src/types.ts). -/
structure AnalyticsMetrics where
  totalQueries : Nat
  avgResponseTime : Rat
  backendCalls : Nat
  lastQueryLatency : Option QueryLatency
deriving DecidableEq

/-- A `Partial<AnalyticsMetrics>` argument to `updateMetrics`: every field
may be absent. -/
structure MetricsUpdate where
  totalQueries : Option Nat := none
  avgResponseTime : Option Rat := none
  backendCalls : Option Nat := none
  lastQueryLatency : Option QueryLatency := none

/-- The initial metrics state created in `App`'s `useState`. -/
def initialMetrics : AnalyticsMetrics :=
  { totalQueries := 0, avgResponseTime := 0, backendCalls := 0, lastQueryLatency := none }

/-- `updateMetrics` from src/unnamed/part_000 lines 17-34.
Line 19: `totalQueries = (prev.totalQueries || 0) + (newMetrics.totalQueries || 0)`
(`prev.totalQueries || 0` is the identity on a number, kept as-is).
Lines 23-25: the running average is recomputed only when both
`newMetrics.avgResponseTime` and `newMetrics.totalQueries` are truthy
(present and nonzero), dividing by the already-updated `totalQueries`.
Line 30: `backendCalls: prev.backendCalls + (newMetrics.backendCalls || 0)`.
Line 31: `lastQueryLatency: newMetrics.lastQueryLatency || prev.lastQueryLatency`. -/
def updateMetrics (prev : AnalyticsMetrics) (nm : MetricsUpdate) : AnalyticsMetrics :=
  let totalQueries := prev.totalQueries + nm.totalQueries.getD 0
  let avgResponseTime :=
    if nm.avgResponseTime.getD 0 ≠ 0 ∧ nm.totalQueries.getD 0 ≠ 0 then
      (prev.avgResponseTime * (prev.totalQueries : Rat) + nm.avgResponseTime.getD 0)
        / (totalQueries : Rat)
    else prev.avgResponseTime
  { totalQueries := totalQueries
    avgResponseTime := avgResponseTime
    backendCalls := prev.backendCalls + nm.backendCalls.getD 0
    lastQueryLatency := nm.lastQueryLatency.orElse (fun _ => prev.lastQueryLatency) }

/-- The update the turn pipeline sends for one completed turn with
`totalQueries = 1` and response time `t` (latency detail and backend-call
count do not affect the average and are left absent here). -/
def turnUpdate (t : Rat) : MetricsUpdate :=
  { totalQueries := some 1, avgResponseTime := some t }

/-- A `Partial<AnalyticsMetrics>` with every field absent. -/
def emptyUpdate : MetricsUpdate := {}

/-- Folding a sequence of single-query turn updates into the aggregator. -/
def foldTurns (m : AnalyticsMetrics) (ts : List Rat) : AnalyticsMetrics :=
  ts.foldl (fun acc t => updateMetrics acc (turnUpdate t)) m

lemma foldTurns_nil (m : AnalyticsMetrics) : foldTurns m [] = m := rfl

lemma foldTurns_cons (m : AnalyticsMetrics) (t : Rat) (ts : List Rat) :
    foldTurns m (t :: ts) = foldTurns (updateMetrics m (turnUpdate t)) ts := rfl

lemma updateMetrics_turn_count (m : AnalyticsMetrics) (t : Rat) :
    (updateMetrics m (turnUpdate t)).totalQueries = m.totalQueries + 1 := by
  simp [updateMetrics, turnUpdate]

lemma updateMetrics_turn_avg (m : AnalyticsMetrics) (t : Rat) (ht : t ≠ 0) :
    (updateMetrics m (turnUpdate t)).avgResponseTime
      = (m.avgResponseTime * (m.totalQueries : Rat) + t)
          / ((m.totalQueries : Rat) + 1) := by
  simp [updateMetrics, turnUpdate, ht]

/-- Invariant of the running-mean fold: the count tracks the number of
turns and `avg * count` tracks the accumulated sum. -/
lemma foldTurns_mean : ∀ (ts : List Rat) (m : AnalyticsMetrics), (∀ t ∈ ts, t ≠ 0) →
    (foldTurns m ts).totalQueries = m.totalQueries + ts.length ∧
    (foldTurns m ts).avgResponseTime * ((m.totalQueries : Rat) + (ts.length : Rat))
      = m.avgResponseTime * (m.totalQueries : Rat) + ts.sum := by
  intro ts
  induction ts with
  | nil =>
    intro m _
    constructor
    · simp [foldTurns]
    · simp [foldTurns]
  | cons t ts ih =>
    intro m h
    have ht : t ≠ 0 := h t (List.mem_cons_self t ts)
    have htl : ∀ x ∈ ts, x ≠ 0 := fun x hx => h x (List.mem_cons_of_mem t hx)
    obtain ⟨ihc, iha⟩ := ih (updateMetrics m (turnUpdate t)) htl
    rw [updateMetrics_turn_count] at ihc
    rw [updateMetrics_turn_count, updateMetrics_turn_avg m t ht] at iha
    have hn : ((m.totalQueries : Rat) + 1) ≠ 0 := by positivity
    constructor
    · rw [foldTurns_cons, ihc]
      simp [List.length_cons]
      omega
    · rw [foldTurns_cons]
      push_cast at iha ⊢
      rw [div_mul_cancel₀ _ hn] at iha
      simp only [List.length_cons, List.sum_cons] at *
      push_cast
      linarith [iha]

/-- Closed form from the initial state: count is the list length and
`avg * length = sum`. -/
lemma foldTurns_avg_init (ts : List Rat) (h : ∀ t ∈ ts, t ≠ 0) :
    (foldTurns initialMetrics ts).totalQueries = ts.length ∧
    (foldTurns initialMetrics ts).avgResponseTime * (ts.length : Rat) = ts.sum := by
  obtain ⟨hc, ha⟩ := foldTurns_mean ts initialMetrics h
  simp [initialMetrics] at hc ha
  exact ⟨hc, ha⟩

/-- Claim C1: folding N turn updates with `queries = 1` and positive
`totalMillis` values into the Analytics Aggregator makes
`avgResponseTimeMillis` the arithmetic mean of the N values — the guarded
update rule `newAvg = (oldAvg * oldCount + newTotal) / (oldCount + 1)`
computes the running mean exactly (over exact rationals). -/
theorem analytics_avg_is_mean (ts : List Rat) (h : ∀ t ∈ ts, 0 < t) :
    (foldTurns initialMetrics ts).avgResponseTime = ts.sum / (ts.length : Rat) := by
  have h0 : ∀ t ∈ ts, t ≠ 0 := fun t ht => ne_of_gt (h t ht)
  obtain ⟨hc, ha⟩ := foldTurns_avg_init ts h0
  rcases ts with _ | ⟨t, ts⟩
  · simp [foldTurns, initialMetrics]
  · have hlen : (((t :: ts).length : Nat) : Rat) ≠ 0 := by
      simp [List.length_cons]
      positivity
    exact (eq_div_iff hlen).mpr ha

/-- Witness for C1 at the concrete fold sequence `[100, 50]`. -/
theorem analytics_avg_is_mean_witness :
    (∀ t ∈ [(100 : Rat), 50], 0 < t) ∧
    (foldTurns initialMetrics [(100 : Rat), 50]).avgResponseTime
      = ([(100 : Rat), 50].sum) / (([(100 : Rat), 50].length : Rat)) :=
  ⟨by intro t ht; fin_cases ht <;> norm_num,
   analytics_avg_is_mean [(100 : Rat), 50] (by intro t ht; fin_cases ht <;> norm_num)⟩

/-- Claim C7: a fold with every field absent is an identity operation on
the aggregator state. -/
theorem fold_empty_noop (prev : AnalyticsMetrics) :
    updateMetrics prev emptyUpdate = prev := by
  simp [updateMetrics, emptyUpdate, Option.orElse]

/-- Claim C9, counterexample to the final clause as stated: a zero-latency
fold from the initial state leaves the average equal to the arithmetic
mean of all totals seen (both are 0), so the average does not "no longer
equal" the mean in every case. -/
theorem zero_latency_equals_mean_at_origin :
    (updateMetrics initialMetrics (turnUpdate 0)).totalQueries = 1 ∧
    (updateMetrics initialMetrics (turnUpdate 0)).avgResponseTime
      = ([(0 : Rat)].sum) / (([(0 : Rat)].length : Rat)) := by
  constructor
  · rfl
  · simp [updateMetrics, turnUpdate, initialMetrics]

/-- Claim C9 (amended): a fold with `queries = 1` and `totalMillis = 0`
increments `totalQueries` and leaves `avgResponseTimeMillis` unchanged
(the truthiness guard skips the running-mean update for a zero latency);
whenever the previously folded totals are positive, the average then no
longer equals the arithmetic mean of all totals seen. -/
theorem zero_latency_breaks_mean (ts : List Rat) (hne : ts ≠ []) (h : ∀ t ∈ ts, 0 < t) :
    (updateMetrics (foldTurns initialMetrics ts) (turnUpdate 0)).totalQueries
      = ts.length + 1 ∧
    (updateMetrics (foldTurns initialMetrics ts) (turnUpdate 0)).avgResponseTime
      = (foldTurns initialMetrics ts).avgResponseTime ∧
    (updateMetrics (foldTurns initialMetrics ts) (turnUpdate 0)).avgResponseTime
      ≠ (ts.sum + 0) / ((ts.length : Rat) + 1) := by
  have h0 : ∀ t ∈ ts, t ≠ 0 := fun t ht => ne_of_gt (h t ht)
  obtain ⟨hc, ha⟩ := foldTurns_avg_init ts h0
  have havg : (updateMetrics (foldTurns initialMetrics ts) (turnUpdate 0)).avgResponseTime
      = (foldTurns initialMetrics ts).avgResponseTime := by
    simp [updateMetrics, turnUpdate]
  have hcount : (updateMetrics (foldTurns initialMetrics ts) (turnUpdate 0)).totalQueries
      = ts.length + 1 := by
    rw [updateMetrics_turn_count, hc]
  refine ⟨hcount, havg, ?_⟩
  rw [havg]
  have hsum : 0 < ts.sum := List.sum_pos ts h hne
  have hlen : 0 < ts.length := List.length_pos.mpr hne
  have hlenQ : (0 : Rat) < (ts.length : Rat) := by exact_mod_cast hlen
  have havgval : (foldTurns initialMetrics ts).avgResponseTime
      = ts.sum / (ts.length : Rat) := (eq_div_iff (ne_of_gt hlenQ)).mpr ha
  rw [havgval, add_zero]
  intro heq
  have hlen1 : ((ts.length : Rat) + 1) ≠ 0 := by positivity
  have h2 := (div_eq_div_iff (ne_of_gt hlenQ) hlen1).mp heq
  ring_nf at h2
  nlinarith [hsum, h2]

/-- Witness for the amended C9 at the concrete prior fold sequence
`[100]`: the count becomes 2, the average stays 100 and no longer equals
the mean 50. -/
theorem zero_latency_breaks_mean_witness :
    ([(100 : Rat)] ≠ []) ∧
    ((updateMetrics (foldTurns initialMetrics [(100 : Rat)]) (turnUpdate 0)).totalQueries
        = [(100 : Rat)].length + 1 ∧
     (updateMetrics (foldTurns initialMetrics [(100 : Rat)]) (turnUpdate 0)).avgResponseTime
        = (foldTurns initialMetrics [(100 : Rat)]).avgResponseTime ∧
     (updateMetrics (foldTurns initialMetrics [(100 : Rat)]) (turnUpdate 0)).avgResponseTime
        ≠ ([(100 : Rat)].sum + 0) / (([(100 : Rat)].length : Rat) + 1)) :=
  ⟨by decide,
   zero_latency_breaks_mean [(100 : Rat)] (by decide)
     (by intro t ht; fin_cases ht; norm_num)⟩

/-! ## Response Engine Adapter (src/unnamed/part_001) -/

/-- A mock order record from `MOCK_DATABASE.orders`. -/
structure Order where
  status : String
  delivery_date : String
deriving DecidableEq

/-- `MOCK_DATABASE.orders` (src/unnamed/part_001 lines 12-17). -/
def mockOrders : String → Option Order
  | "ORD-123" => some { status := "Shipped", delivery_date := "2023-10-25" }
  | "ORD-456" => some { status := "Processing", delivery_date := "TBD" }
  | "ORD-789" => some { status := "Delivered", delivery_date := "2023-10-20" }
  | _ => none

/-- The single mock account record from `MOCK_DATABASE.accounts`. -/
structure Account where
  balance : Rat
  currency : String
  plan : String
deriving DecidableEq

/-- `MOCK_DATABASE.accounts["user_main"]` (balance 1250.50). -/
def mockAccount : Account := { balance := 2501 / 2, currency := "USD", plan := "Premium" }

/-- The result packaged into a tool `functionResponse` (the code builds
plain objects; we tag the four shapes it can produce). -/
inductive ApiResult where
  | orderInfo (o : Order)
  | orderNotFound
  | accountInfo (a : Account)
  | functionNotFound
deriving DecidableEq

/-- One entry of `result.functionCalls`: call identifier, tool name and
string-valued arguments. -/
structure EngineFunctionCall where
  id : Option String
  name : String
  args : List (String × String)
deriving DecidableEq

/-- Reading `args.orderId`: look the key up in the argument map. -/
def lookupArg (args : List (String × String)) (key : String) : Option String :=
  (args.find? (fun p => p.1 = key)).map Prod.snd

/-- One `functionResponse` part sent back to the engine. -/
structure FunctionResponsePart where
  id : Option String
  name : String
  response : ApiResult
deriving DecidableEq

/-- The tool-dispatch body of the function-calling loop in
`getBotResponse` (src/unnamed/part_001 lines 154-177): `getOrderStatus`
looks the order up and falls back to an "Order not found." result,
`getAccountBalance` returns the mock account, and an unrecognized name
yields a "Function not found" result. -/
def runToolCall (call : EngineFunctionCall) : FunctionResponsePart :=
  let apiResult :=
    if call.name = "getOrderStatus" then
      match (lookupArg call.args "orderId").bind mockOrders with
      | some o => ApiResult.orderInfo o
      | none => ApiResult.orderNotFound
    else if call.name = "getAccountBalance" then
      ApiResult.accountInfo mockAccount
    else
      ApiResult.functionNotFound
  { id := call.id, name := call.name, response := apiResult }

/-- One engine reply: `functionCalls` (absent modelled as `[]`) and
`text` (`none` models an absent/undefined text). -/
structure EngineResult where
  functionCalls : List EngineFunctionCall := []
  text : Option String := none
deriving DecidableEq

/-- The external reasoning engine behind the chat session: both
`sendMessage` shapes (user text, and tool-response parts) may throw,
modelled by `Except String`. -/
structure Engine where
  sendMessage : String → Except String EngineResult
  sendToolResults : List FunctionResponsePart → Except String EngineResult

/-- The adapter's return shape `{ text, toolUsed }`. -/
structure BotResult where
  text : String
  toolUsed : Bool
deriving DecidableEq

/-- The empty-text fallback literal returned by `getBotResponse`
(src/unnamed/part_001 line 186). -/
def fallbackClarText : String :=
  "I\x27m sorry, I didn\x27t quite get that. Could you rephrase?"

/-- The catch-all apology literal returned by `getBotResponse`
(src/unnamed/part_001 line 197). -/
def apologyText : String :=
  "I\x27m having a bit of trouble connecting to my systems right now. Please try again in a moment."

/-- The clarification wording the specification quotes in §4.2. -/
def claimedClarText : String :=
  "I didn\x27t quite catch that, could you rephrase?"

/-- The engine round-trips inside `getBotResponse`'s `try` block
(src/unnamed/part_001 lines 144-181): send the user message; if the reply
carries function calls, execute each tool and send the packaged responses
back, taking the follow-up reply as the final one and marking
`toolUsed`. -/
def engineExchange (eng : Engine) (userText : String) :
    Except String (EngineResult × Bool) := do
  let result ← eng.sendMessage userText
  if result.functionCalls.length > 0 then
    let parts := result.functionCalls.map runToolCall
    let result2 ← eng.sendToolResults parts
    pure (result2, true)
  else
    pure (result, false)

/-- Lines 183-192: if the final `result.text` is absent or empty, return
the canned clarification with `toolUsed = false`; otherwise return the
text with the recorded `toolUsed` flag. -/
def finalizeResult (r : EngineResult) (toolUsed : Bool) : BotResult :=
  match r.text with
  | none => { text := fallbackClarText, toolUsed := false }
  | some t => if t = "" then { text := fallbackClarText, toolUsed := false }
              else { text := t, toolUsed := toolUsed }

/-- The `try` body of `getBotResponse`. -/
def getBotResponseBody (eng : Engine) (userText : String) : Except String BotResult := do
  let (r, toolUsed) ← engineExchange eng userText
  pure (finalizeResult r toolUsed)

/-- `getBotResponse` (src/unnamed/part_001 lines 132-199): the `catch`
converts any thrown error into the canned apology with
`toolUsed = false`, so the adapter itself is a total function. -/
def getBotResponse (eng : Engine) (userText : String) : BotResult :=
  match getBotResponseBody eng userText with
  | .ok r => r
  | .error _ => { text := apologyText, toolUsed := false }

/-! ## Speech synthesis (src/unnamed/part_001, `generateSpeech`) -/

/-- The extracted `candidates?.[0]?.content?.parts?.[0]?.inlineData?.data`
of a synthesis reply. We model the base64 payload together with `atob` as
the decoded binary string, so the byte-extraction loop
(`bytes[i] = binaryString.charCodeAt(i)`) becomes a map over the string's
characters. -/
structure TtsResponse where
  audioData : Option String := none
deriving DecidableEq

/-- The external synthesis service: `ai.models.generateContent` applied
to the text and voice name, which may throw. -/
structure TtsService where
  call : String → String → Except String TtsResponse

/-- JavaScript's `String.prototype.trim`, modelled over the character
list (leading and trailing whitespace removed); structural recursion so
concrete instances evaluate. -/
def trimChars (s : String) : String :=
  String.mk (((s.toList.dropWhile Char.isWhitespace).reverse.dropWhile
    Char.isWhitespace).reverse)

/-- The error rethrown by `generateSpeech`'s `catch` (line 123). -/
def ttsGenericError : String := "Speech generation failed. Service might be busy."

/-- The error thrown when the reply holds no audio (line 109). -/
def noAudioError : String := "Gemini returned no audio data."

/-- The `try` body of `generateSpeech` (src/unnamed/part_001 lines
89-120), paired with a flag recording whether the external service was
invoked: whitespace-only text returns `null` before any call; a reply
without audio data throws; otherwise the decoded bytes are returned. -/
def generateSpeechBody (svc : TtsService) (text : String) (voiceName : String) :
    Except String (Option (List Nat)) × Bool :=
  if trimChars text = "" then (Except.ok none, false)
  else
    match svc.call text voiceName with
    | .error e => (Except.error e, true)
    | .ok resp =>
      match resp.audioData with
      | none => (Except.error noAudioError, true)
      | some binaryString =>
        (Except.ok (some (binaryString.toList.map Char.toNat)), true)

/-- `generateSpeech` (lines 89-125): the `catch` rethrows every failure
as the generic "Speech generation failed" error. -/
def generateSpeech (svc : TtsService) (text : String) (voiceName : String) :
    Except String (Option (List Nat)) × Bool :=
  match generateSpeechBody svc text voiceName with
  | (.ok r, c) => (Except.ok r, c)
  | (.error _, c) => (Except.error ttsGenericError, c)

/-- Claim C3, counterexample: an engine whose final text is empty makes
`getBotResponse` return the code's clarification literal, which is not
the wording quoted by the claim. -/
def emptyTextEngine : Engine :=
  { sendMessage := fun _ => Except.ok { functionCalls := [], text := some "" }
    sendToolResults := fun _ => Except.ok {} }

/-- Claim C3, counterexample: at the concrete input above, the adapter
answers with `fallbackClarText`, and that differs from the clarification
text the claim states. -/
theorem clarification_text_counterexample :
    getBotResponse emptyTextEngine "hello"
      = { text := fallbackClarText, toolUsed := false } ∧
    (getBotResponse emptyTextEngine "hello").text ≠ claimedClarText := by
  constructor
  · rfl
  · decide

/-- Claim C3 (amended): whenever the engine's final response text is
empty or absent, the adapter returns the canned clarification
"I'm sorry, I didn't quite get that. Could you rephrase?" and reports
`toolUsed = false`, even if a tool actually executed during the
exchange. -/
theorem empty_text_clarification (eng : Engine) (t : String) (fr : EngineResult)
    (b : Bool) (hex : engineExchange eng t = Except.ok (fr, b))
    (hf : fr.text = none ∨ fr.text = some "") :
    getBotResponse eng t = { text := fallbackClarText, toolUsed := false } := by
  have hbody : getBotResponseBody eng t = Except.ok (finalizeResult fr b) := by
    simp [getBotResponseBody, hex]
  rcases hf with hf | hf <;>
    simp [getBotResponse, hbody, finalizeResult, hf]

/-- Witness engine for C3: one tool call actually executes, then the
follow-up reply has empty text. -/
def toolThenEmptyEngine : Engine :=
  { sendMessage := fun _ => Except.ok
      { functionCalls := [{ id := some "call-1", name := "getAccountBalance", args := [] }]
        text := none }
    sendToolResults := fun _ => Except.ok { functionCalls := [], text := some "" } }

/-- Witness for the amended C3: with a tool executed and an empty final
text, the adapter still answers the code's clarification with
`toolUsed = false`. -/
theorem empty_text_clarification_witness :
    engineExchange toolThenEmptyEngine "balance please"
      = Except.ok (({ functionCalls := [], text := some "" } : EngineResult), true) ∧
    getBotResponse toolThenEmptyEngine "balance please"
      = { text := fallbackClarText, toolUsed := false } :=
  ⟨rfl, empty_text_clarification toolThenEmptyEngine "balance please"
    { functionCalls := [], text := some "" } true rfl (Or.inr rfl)⟩

/-- Claim C10: `generateSpeech` returns `null` (and skips the service
call) exactly when the text trims to empty, and a non-empty text whose
service reply holds no audio data makes it throw the generic error
instead of returning `null`. -/
theorem generate_speech_contract (svc : TtsService) (text voice : String) :
    ((generateSpeech svc text voice).1 = Except.ok none ↔ trimChars text = "") ∧
    (trimChars text = "" → generateSpeech svc text voice = (Except.ok none, false)) ∧
    (trimChars text ≠ "" → ∀ resp, svc.call text voice = Except.ok resp →
      resp.audioData = none →
      generateSpeech svc text voice = (Except.error ttsGenericError, true)) := by
  by_cases htrim : trimChars text = ""
  · refine ⟨?_, ?_, ?_⟩
    · simp [generateSpeech, generateSpeechBody, htrim]
    · intro _
      simp [generateSpeech, generateSpeechBody, htrim]
    · intro hne
      exact absurd htrim hne
  · refine ⟨?_, ?_, ?_⟩
    · constructor
      · intro hok
        exfalso
        rcases hcall : svc.call text voice with e | resp
        · simp [generateSpeech, generateSpeechBody, htrim, hcall] at hok
        · rcases hdata : resp.audioData with _ | bin <;>
            simp [generateSpeech, generateSpeechBody, htrim, hcall, hdata] at hok
      · intro h
        exact absurd h htrim
    · intro h
      exact absurd h htrim
    · intro _ resp hcall hdata
      simp [generateSpeech, generateSpeechBody, htrim, hcall, hdata]

/-- Concrete synthesis service whose replies never carry audio data. -/
def noAudioSvc : TtsService :=
  { call := fun _ _ => Except.ok { audioData := none } }

/-- Witness for C10: whitespace-only text yields `null` without a service
call, and a non-empty text with an audio-less reply yields the generic
error. -/
theorem generate_speech_contract_witness :
    generateSpeech noAudioSvc "  " "Kore" = (Except.ok none, false) ∧
    generateSpeech noAudioSvc "hello" "Kore" = (Except.error ttsGenericError, true) :=
  ⟨(generate_speech_contract noAudioSvc "  " "Kore").2.1 (by decide),
   (generate_speech_contract noAudioSvc "hello" "Kore").2.2 (by decide)
     { audioData := none } rfl rfl⟩

/-! ## Turn pipeline (src/components/TTSView.tsx, `VoiceBotView`) -/

/-- `Message.role` from src/types.ts. -/
inductive Role where
  | user
  | model
deriving DecidableEq

/-- The `Message` interface from src/types.ts. -/
structure Message where
  id : String
  role : Role
  text : String
  timestamp : Nat
  audioUrl : Option String := none
  isToolUse : Option Bool := none
deriving DecidableEq

/-- The `LoadingState` union from src/types.ts. -/
inductive LoadingState where
  | idle
  | recording
  | transcribing
  | thinking
  | synthesizing
  | playing
  | error
deriving DecidableEq

/-- An `AudioBufferSourceNode` held in `currentSourceRef`; calling
`stop()` on an already-stopped node throws (swallowed by the code's
`try`/`catch`) and fires no further `ended` event. -/
structure SourceNode where
  stopped : Bool
deriving DecidableEq

/-- The mutable state of `VoiceBotView` relevant to the pipeline:
`messages`, `status`, `error`, `currentSourceRef`, and the `App`-held
analytics folded through the `updateMetrics` prop. -/
structure PipelineState where
  messages : List Message
  status : LoadingState
  error : Option String
  currentSource : Option SourceNode
  metrics : AnalyticsMetrics
deriving DecidableEq

/-- The component's initial state: the greeting message (id `"init"`,
its creation timestamp taken as 0), status `idle`, no error, no audio
source, fresh metrics. -/
def initialPipelineState : PipelineState :=
  { messages := [{ id := "init", role := Role.model
                   text := "Hello! I\x27m Sonic. How can I help you today?"
                   timestamp := 0 }]
    status := LoadingState.idle
    error := none
    currentSource := none
    metrics := initialMetrics }

/-- The environment of one conversation turn: the external engines and
the ambient clock / timer readings. `userNow` is the `Date.now()` value
when the user message is built (line 355), `botNow` the value when the
assistant message is built (lines 395-398); `llmMillis` and `ttsMillis`
are the `performance.now()` elapsed-time measurements. -/
structure TurnEnv where
  engine : Engine
  tts : TtsService
  decodeOk : Bool
  userNow : Nat
  botNow : Nat
  llmMillis : Rat
  ttsMillis : Rat

/-- `stopPlayback` (TTSView.tsx lines 341-345): if a source node exists,
`stop()` it inside `try`/`catch` (a second stop on the same node throws
and is swallowed). Stopping a live node fires its `ended` event, whose
handler (line 506-508) moves the status to `idle` only when it is
currently `playing`. The function itself never writes the status. -/
def stopPlayback (s : PipelineState) : PipelineState :=
  match s.currentSource with
  | none => s
  | some src =>
    if src.stopped then s
    else
      { s with
          currentSource := some ⟨true⟩,
          status := if s.status = LoadingState.playing then LoadingState.idle
                    else s.status }

/-- The user `Message` built at line 355:
`{ id: Date.now().toString(), role: 'user', text, timestamp: Date.now() }`. -/
def userMessage (env : TurnEnv) (userText : String) : Message :=
  { id := toString env.userNow, role := Role.user, text := userText
    timestamp := env.userNow }

/-- The assistant `Message` built at lines 394-400:
`{ id: (Date.now() + 1).toString(), role: 'model', text, timestamp: Date.now(), isToolUse }`. -/
def assistantMessage (env : TurnEnv) (txt : String) (toolUsed : Bool) : Message :=
  { id := toString (env.botNow + 1), role := Role.model, text := txt
    timestamp := env.botNow, isToolUse := some toolUsed }

/-- `playResponse` (lines 494-515): decode and start the audio source;
on any failure the `catch` sets status `idle` and error `AUDIO ERR`.
On success the new live source is stored in `currentSourceRef` and the
status (set to `playing` by the caller) is left as is. -/
def playResponse (env : TurnEnv) (s : PipelineState) : PipelineState :=
  if env.decodeOk then { s with currentSource := some ⟨false⟩ }
  else { s with status := LoadingState.idle, error := some "AUDIO ERR" }

/-- `processConversationTurn` (lines 351-409): append the user message;
status `thinking`; ask the adapter; status `synthesizing`; synthesize
speech for the reply inside `try`/`catch` (failure degrades to no
audio); fold the turn metrics via `updateMetrics`; if audio exists set
status `playing` and start playback, else status `idle`; finally append
the assistant message. The outer `catch` (SYSTEM ERR / `error` status)
is unreachable here because every awaited step in the model is total,
mirroring the adapter's never-throws contract. -/
def processConversationTurn (env : TurnEnv) (userText : String) (sttLatency : Rat)
    (s : PipelineState) : PipelineState :=
  let s1 := { s with messages := s.messages ++ [userMessage env userText] }
  let s2 := { s1 with status := LoadingState.thinking }
  let br := getBotResponse env.engine userText
  let s3 := { s2 with status := LoadingState.synthesizing }
  let audioData : Option (List Nat) :=
    match (generateSpeech env.tts br.text "Kore").1 with
    | .ok b => b
    | .error _ => none
  let totalTime := sttLatency + env.llmMillis + env.ttsMillis
  let turnMetrics : MetricsUpdate :=
    { totalQueries := some 1,
      avgResponseTime := some totalTime,
      backendCalls := some (if br.toolUsed then 1 else 0),
      lastQueryLatency := some ⟨sttLatency, env.llmMillis, env.ttsMillis, totalTime⟩ }
  let s4 := { s3 with metrics := updateMetrics s3.metrics turnMetrics }
  let s5 :=
    match audioData with
    | some _ => playResponse env { s4 with status := LoadingState.playing }
    | none => { s4 with status := LoadingState.idle }
  { s5 with messages := s5.messages ++ [assistantMessage env br.text br.toolUsed] }

/-- The environment of a voice turn: the turn environment plus the
transcription call's outcome and its measured latency. -/
structure AudioEnv where
  turn : TurnEnv
  transcribeResult : Except String String
  sttMillis : Rat

/-- `processAudioInput` (lines 449-492), paired with a flag recording
whether the transcription service was invoked. A blob under 100 bytes is
rejected with `TOO SHORT` and status `idle` before any service call; a
transcription failure is caught as `SYSTEM ERR` with status `error`; an
empty or `"..."` transcript yields `NO SPEECH` and `idle`; otherwise the
transcript is handed to `processConversationTurn`. -/
def processAudioInput (env : AudioEnv) (blobSize : Nat) (s : PipelineState) :
    PipelineState × Bool :=
  if blobSize < 100 then
    ({ s with error := some "TOO SHORT", status := LoadingState.idle }, false)
  else
    let s1 := { s with status := LoadingState.transcribing }
    match env.transcribeResult with
    | .error _ =>
      ({ s1 with error := some "SYSTEM ERR", status := LoadingState.error }, true)
    | .ok transcript =>
      if trimChars transcript = "" ∨ transcript = "..." then
        ({ s1 with status := LoadingState.idle, error := some "NO SPEECH" }, true)
      else
        (processConversationTurn env.turn transcript env.sttMillis s1, true)

/-- `handleSuggestionClick` (lines 517-520): reject unless the status is
`idle`, else run the turn with zero STT latency. -/
def handleSuggestionClick (env : TurnEnv) (text : String) (s : PipelineState) :
    PipelineState :=
  if s.status ≠ LoadingState.idle then s
  else processConversationTurn env text 0 s

/-- Shape of every completed turn: the transcript grows by exactly the
user message and one assistant message carrying the adapter's reply, and
the final status is `playing` (audio started) or `idle`. -/
lemma processTurn_shape (env : TurnEnv) (t : String) (stt : Rat) (s : PipelineState) :
    (processConversationTurn env t stt s).messages
      = s.messages ++ [userMessage env t,
          assistantMessage env (getBotResponse env.engine t).text
            (getBotResponse env.engine t).toolUsed] ∧
    ((processConversationTurn env t stt s).status = LoadingState.playing ∨
     (processConversationTurn env t stt s).status = LoadingState.idle) := by
  rcases hg : (generateSpeech env.tts (getBotResponse env.engine t).text "Kore").1
      with e | o
  · simp [processConversationTurn, hg]
  · rcases o with _ | bytes
    · simp [processConversationTurn, hg]
    · by_cases hd : env.decodeOk <;>
        simp [processConversationTurn, hg, playResponse, hd]

/-- Claim C2: any engine/transport failure inside the adapter is
converted into the canned apology with `toolUsed = false` (the adapter
never fails), and a turn over such a failing engine still appends exactly
one assistant message — the apology — and completes to `playing` or
`idle` rather than aborting. -/
theorem adapter_absorbs_failure (env : TurnEnv) (t : String) (e : String)
    (stt : Rat) (s : PipelineState)
    (h : getBotResponseBody env.engine t = Except.error e) :
    getBotResponse env.engine t = { text := apologyText, toolUsed := false } ∧
    (processConversationTurn env t stt s).messages
      = s.messages ++ [userMessage env t, assistantMessage env apologyText false] ∧
    ((processConversationTurn env t stt s).status = LoadingState.playing ∨
     (processConversationTurn env t stt s).status = LoadingState.idle) := by
  have hbr : getBotResponse env.engine t = { text := apologyText, toolUsed := false } := by
    unfold getBotResponse
    rw [h]
  obtain ⟨hm, hs⟩ := processTurn_shape env t stt s
  rw [hbr] at hm
  exact ⟨hbr, hm, hs⟩

/-- An engine whose transport always fails. -/
def failingEngine : Engine :=
  { sendMessage := fun _ => Except.error "network down"
    sendToolResults := fun _ => Except.error "network down" }

/-- A synthesis service that always fails. -/
def downTts : TtsService :=
  { call := fun _ _ => Except.error "tts down" }

/-- A concrete turn environment over the failing engine. -/
def envFail : TurnEnv :=
  { engine := failingEngine, tts := downTts, decodeOk := true
    userNow := 1000, botNow := 2000, llmMillis := 50, ttsMillis := 80 }

/-- Witness for C2 at a concrete failing engine and the initial state. -/
theorem adapter_absorbs_failure_witness :
    getBotResponse envFail.engine "hello" = { text := apologyText, toolUsed := false } ∧
    (processConversationTurn envFail "hello" 120 initialPipelineState).messages
      = initialPipelineState.messages
          ++ [userMessage envFail "hello", assistantMessage envFail apologyText false] ∧
    ((processConversationTurn envFail "hello" 120 initialPipelineState).status
        = LoadingState.playing ∨
     (processConversationTurn envFail "hello" 120 initialPipelineState).status
        = LoadingState.idle) :=
  adapter_absorbs_failure envFail "hello" "network down" 120 initialPipelineState rfl

/-- Claim C4: while the pipeline is not `idle` (a turn is in flight, e.g.
`thinking`), a suggestion click is rejected: the state — including the
transcript — is unchanged. -/
theorem suggestion_rejected_busy (env : TurnEnv) (t : String) (s : PipelineState)
    (h : s.status ≠ LoadingState.idle) :
    handleSuggestionClick env t s = s := by
  simp [handleSuggestionClick, h]

/-- A state with a turn in flight (spec state `reasoning`, code state
`thinking`). -/
def busyState : PipelineState :=
  { initialPipelineState with status := LoadingState.thinking }

/-- Witness for C4 at a concrete in-flight state. -/
theorem suggestion_rejected_busy_witness :
    busyState.status ≠ LoadingState.idle ∧
    handleSuggestionClick envFail "Check my account balance" busyState = busyState :=
  ⟨by decide,
   suggestion_rejected_busy envFail "Check my account balance" busyState (by decide)⟩

/-- Claim C5: an audio payload under the 100-byte threshold is rejected
as `TOO SHORT`: the transcription service is never invoked (the flag is
`false`), the status ends `idle`, and no transcript message is
appended. -/
theorem short_audio_rejected (env : AudioEnv) (blobSize : Nat) (s : PipelineState)
    (h : blobSize < 100) :
    processAudioInput env blobSize s
      = ({ s with error := some "TOO SHORT", status := LoadingState.idle }, false) ∧
    (processAudioInput env blobSize s).1.messages = s.messages ∧
    (processAudioInput env blobSize s).2 = false := by
  refine ⟨?_, ?_, ?_⟩ <;> simp [processAudioInput, h]

/-- A concrete voice-turn environment whose transcription would succeed
if it were reached. -/
def sampleAudioEnv : AudioEnv :=
  { turn := envFail, transcribeResult := Except.ok "hello there", sttMillis := 12 }

/-- Witness for C5 at a 50-byte payload. -/
theorem short_audio_rejected_witness :
    50 < 100 ∧
    processAudioInput sampleAudioEnv 50 initialPipelineState
      = ({ initialPipelineState with
             error := some "TOO SHORT",
             status := LoadingState.idle }, false) :=
  ⟨by decide,
   (short_audio_rejected sampleAudioEnv 50 initialPipelineState (by decide)).1⟩

/-- A state caught mid-turn (`thinking`) while a live source node is
still registered. -/
def thinkingLiveState : PipelineState :=
  { initialPipelineState with
      status := LoadingState.thinking,
      currentSource := some ⟨false⟩ }

/-- Claim C6, counterexample: stopping playback from the `thinking`
state does not force the status to `idle` — `stopPlayback` never writes
the status itself, and the `ended` handler only moves `playing` to
`idle`. -/
theorem stop_playback_not_always_idle :
    (stopPlayback thinkingLiveState).status ≠ LoadingState.idle := by
  decide

/-- Claim C6 (amended): stopping playback is synchronous, idempotent and
never throws — a no-op when the source is absent or already stopped — and
it moves the status to `idle` exactly when the status is `playing` (so
the status is unchanged when already `idle`, and unchanged from every
non-`playing` state); the transcript is never touched. -/
theorem stop_playback_behavior (s : PipelineState) :
    (s.currentSource = none → stopPlayback s = s) ∧
    (∀ src, s.currentSource = some src → src.stopped = true → stopPlayback s = s) ∧
    (s.status ≠ LoadingState.playing → (stopPlayback s).status = s.status) ∧
    (∀ src, s.currentSource = some src → src.stopped = false →
      s.status = LoadingState.playing → (stopPlayback s).status = LoadingState.idle) ∧
    (stopPlayback s).messages = s.messages := by
  refine ⟨?_, ?_, ?_, ?_, ?_⟩
  · intro hnone
    simp [stopPlayback, hnone]
  · intro src hsome hstop
    simp [stopPlayback, hsome, hstop]
  · intro hne
    rcases hsrc : s.currentSource with _ | src
    · simp [stopPlayback, hsrc]
    · rcases src with ⟨b⟩
      cases b <;> simp [stopPlayback, hsrc, hne]
  · intro src hsome hstop hplay
    simp [stopPlayback, hsome, hstop, hplay]
  · rcases hsrc : s.currentSource with _ | src
    · simp [stopPlayback, hsrc]
    · rcases src with ⟨b⟩
      cases b <;> simp [stopPlayback, hsrc]

/-- A state that is actually playing through a live source. -/
def playingLiveState : PipelineState :=
  { initialPipelineState with
      status := LoadingState.playing,
      currentSource := some ⟨false⟩ }

/-- Witness for the amended C6: stopping with no source is a no-op, and
stopping a live source while `playing` lands in `idle`. -/
theorem stop_playback_behavior_witness :
    stopPlayback initialPipelineState = initialPipelineState ∧
    (stopPlayback playingLiveState).status = LoadingState.idle :=
  ⟨(stop_playback_behavior initialPipelineState).1 rfl,
   (stop_playback_behavior playingLiveState).2.2.2.1 ⟨false⟩ rfl rfl rfl⟩

/-- An engine that answers plainly without tools. -/
def okEngine : Engine :=
  { sendMessage := fun _ => Except.ok { functionCalls := [], text := some "Hello!" }
    sendToolResults := fun _ => Except.ok {} }

/-- Two suggestion-click turns executed while `Date.now()` reads 1000
throughout — the same-millisecond scenario. -/
def sameMillisEnv : TurnEnv :=
  { engine := okEngine, tts := downTts, decodeOk := true
    userNow := 1000, botNow := 1000, llmMillis := 5, ttsMillis := 0 }

/-- Claim C8, failing run: two turns in the same millisecond produce
colliding timestamp-derived message ids, so the transcript's ids are not
unique. -/
theorem duplicate_message_ids :
    ¬ (((handleSuggestionClick sameMillisEnv "Check my account balance"
          (handleSuggestionClick sameMillisEnv "Where is order ORD-123?"
            initialPipelineState)).messages.map Message.id).Nodup) := by
  decide

end VoiceAI
